import Mathlib

/-! Twilio / ClickUp dialer: shallow embedding and verified properties.

The development embeds

* `src/src/twilio.js` (`requiredEnv`, `validateEnv`, `createAccessToken`, `buildVoiceResponse`),
* `src/netlify/functions/token.js` (`getAllowedOrigins`, `buildCorsHeaders`, `handler`),
* `src/netlify/functions/voice.js` (`handler`),
* `src/src/server.js` (`POST /token`, `POST /voice`),
* `src/frontend/src/App.jsx` (the session state held by `App`, the device event handlers,
  `ensureDevice`, `handleCall`, `handleHangup`, the `disabled` guards of the two buttons).

Conventions.  A JavaScript value that is either a string or `undefined` is an `Option String`
(`none` is `undefined`).  A value thrown by JavaScript code is a `JsError`, of which the code
only ever reads `err?.message`.  Library calls whose code is not part of the repository
(`JSON.parse`, `querystring.parse`, `Buffer.from(_, 'base64')`, `AccessToken.toJwt`) are
parameters of the handlers that use them.
-/

namespace Dialer

/-! ## JavaScript helpers -/

/-- The process environment: `process.env[key]` is a string or `undefined`. -/
abbrev Env := String → Option String

/-- JavaScript truthiness of a value that is a string or `undefined`. -/
def truthy : Option String → Bool
  | some s => s != ""
  | none => false

/-- The JavaScript expression `a || b` on values that are strings or `undefined`. -/
def jsOr (a b : Option String) : Option String :=
  if truthy a then a else b

/-- The JavaScript expression `a || 'literal'`, whose value is always a string. -/
def orDefault (a : Option String) (d : String) : String :=
  match a with
  | some s => if s != "" then s else d
  | none => d

/-- A thrown value, as far as the code inspects it: `err?.message`. -/
structure JsError where
  message : Option String
deriving DecidableEq, Repr

/-- Code points removed by `String.prototype.trim` (ECMAScript WhiteSpace and LineTerminator). -/
def isJsWhiteSpace (c : Char) : Bool :=
  [0x09, 0x0A, 0x0B, 0x0C, 0x0D, 0x20, 0xA0, 0x1680, 0x2000, 0x2001, 0x2002, 0x2003, 0x2004,
   0x2005, 0x2006, 0x2007, 0x2008, 0x2009, 0x200A, 0x2028, 0x2029, 0x202F, 0x205F, 0x3000,
   0xFEFF].contains c.toNat

/-- The method `String.prototype.trim`. -/
def jsTrim (s : String) : String :=
  String.mk ((s.data.dropWhile isJsWhiteSpace).reverse.dropWhile isJsWhiteSpace).reverse

/-- The pieces of `s.split(',')`, on lists of characters. -/
def splitCommaChars : List Char → List (List Char)
  | [] => [[]]
  | c :: cs =>
    match splitCommaChars cs with
    | [] => [[c]]
    | piece :: pieces => if c = ',' then [] :: piece :: pieces else (c :: piece) :: pieces

/-- The method call `s.split(',')`. -/
def jsSplitComma (s : String) : List String :=
  (splitCommaChars s.data).map String.mk

/-- Property lookup in a string-valued object such as `event.headers`. -/
def lookupString (obj : List (String × String)) (key : String) : Option String :=
  obj.lookup key

/-- Optional chaining `obj?.key` on a string-valued object that may be null. -/
def lookupOptional (obj : Option (List (String × String))) (key : String) : Option String :=
  match obj with
  | some o => lookupString o key
  | none => none

/-- The value of a parsed form or query field: `undefined`, a string, or (for a repeated
field) the array of its two or more strings. -/
inductive Field where
  | undefined
  | str (s : String)
  | list (xs : List String)
deriving DecidableEq, Repr

/-- JavaScript truthiness of a field value (an array is truthy, also when empty). -/
def Field.truthy : Field → Bool
  | .undefined => false
  | .str s => s != ""
  | .list _ => true

/-- The JavaScript expression `a || b` on field values. -/
def Field.or (a b : Field) : Field :=
  if a.truthy then a else b

/-- Property lookup in a parsed form or query object. -/
def lookupField (obj : List (String × Field)) (key : String) : Field :=
  (obj.lookup key).getD Field.undefined

/-! ## `src/src/twilio.js` -/

/-- The constant `requiredEnv`. -/
def requiredEnv : List String :=
  ["TWILIO_ACCOUNT_SID", "TWILIO_API_KEY", "TWILIO_API_SECRET", "TWILIO_TWIML_APP_SID"]

/-- The function `validateEnv`: the required keys `key` with `!process.env[key]`. -/
def validateEnv (env : Env) : List String :=
  requiredEnv.filter (fun key => !truthy (env key))

/-- The argument of `new twilio.jwt.AccessToken.VoiceGrant(...)`. -/
structure VoiceGrant where
  outgoingApplicationSid : Option String
  incomingAllow : Bool
deriving DecidableEq, Repr

/-- The access token object assembled by `createAccessToken`, before it is signed. -/
structure AccessToken where
  accountSid : Option String
  apiKey : Option String
  apiSecret : Option String
  identity : String
  grants : List VoiceGrant
deriving DecidableEq, Repr

/-- The function `createAccessToken`. -/
def createAccessToken (env : Env) (identity : String) : AccessToken :=
  { accountSid := env "TWILIO_ACCOUNT_SID"
    apiKey := env "TWILIO_API_KEY"
    apiSecret := env "TWILIO_API_SECRET"
    identity := identity
    grants := [{ outgoingApplicationSid := env "TWILIO_TWIML_APP_SID", incomingAllow := true }] }

/-- A verb of a routing document, recorded as the builder call that adds it:
`response.say(message)`, or `response.dial({ callerId })` followed by `dial.number(number)`
for a string `number`.  A `callerId` of `none` is the `undefined` that the code passes so that
the attribute is left out. -/
inductive Verb where
  | say (message : String)
  | dial (callerId : Option String) (number : String)
deriving DecidableEq, Repr

/-- A routing document (`twilio.twiml.VoiceResponse`): its verbs in order. -/
abbrev VoiceResponse := List Verb

/-- The function `buildVoiceResponse`; `none` when it throws: a destination that is an array
(a repeated `To` field) is truthy, and the call `dial.number(toNumber)` of the TwiML library
throws for it. -/
def buildVoiceResponse (env : Env) (toNumber : Field) : Option VoiceResponse :=
  if !toNumber.truthy then
    some [Verb.say "Missing destination number."]
  else
    let callerId := env "TWILIO_CALLER_ID"
    match toNumber with
    | .str number => some [Verb.dial (jsOr callerId none) number]
    | _ => none

/-- Number of `say` verbs of a document. -/
def sayCount (doc : VoiceResponse) : Nat :=
  doc.countP (fun v => match v with | .say _ => true | .dial _ _ => false)

/-- Number of `dial` verbs of a document. -/
def dialCount (doc : VoiceResponse) : Nat :=
  doc.countP (fun v => match v with | .say _ => false | .dial _ _ => true)

/-- The body of a `/voice` response: plain text, `twiml.toString()` of a routing document, or
the page with which the default error handler of Express answers a route that throws. -/
inductive VoiceBody where
  | text (s : String)
  | twiml (doc : VoiceResponse)
  | errorPage
deriving DecidableEq, Repr

/-- A response of the `/voice` endpoint. -/
structure VoiceHttpResponse where
  statusCode : Nat
  contentType : String
  body : VoiceBody
deriving DecidableEq, Repr

/-- The message built from the list of missing keys, shared by the three handlers that check
the configuration. -/
def notConfiguredMessage (missing : List String) : String :=
  "Twilio environment variables not configured: " ++ ", ".intercalate missing

/-! ## `src/netlify/functions/token.js` -/

namespace NetlifyToken

/-- The function `getAllowedOrigins` of `token.js`. -/
def getAllowedOrigins (env : Env) : List String :=
  if !truthy (env "ALLOWED_ORIGIN") then
    ["*"]
  else
    match env "ALLOWED_ORIGIN" with
    | some s => (jsSplitComma s).map jsTrim
    | none => ["*"]

/-- The fields of the function event that the token handler reads. -/
structure Event where
  httpMethod : String
  headers : Option (List (String × String))
  body : Option String
deriving DecidableEq, Repr

/-- The object returned by `buildCorsHeaders`; `allowOrigin` is `none` when the computed
value is `undefined`. -/
structure CorsHeaders where
  allowOrigin : Option String
  allowHeaders : String
  allowMethods : String
deriving DecidableEq, Repr

/-- The local `requestOrigin` of `buildCorsHeaders`:
`event.headers?.origin || event.headers?.Origin`. -/
def requestOrigin (event : Event) : Option String :=
  jsOr (lookupOptional event.headers "origin") (lookupOptional event.headers "Origin")

/-- The function `buildCorsHeaders`. -/
def buildCorsHeaders (env : Env) (event : Event) : CorsHeaders :=
  let allowedOrigins := getAllowedOrigins env
  let origin := requestOrigin event
  let originHeader : Option String :=
    if !allowedOrigins.contains "*" && truthy origin then
      if allowedOrigins.contains (origin.getD "") then origin else allowedOrigins.head?
    else
      some "*"
  { allowOrigin := originHeader
    allowHeaders := "Content-Type"
    allowMethods := "POST, OPTIONS" }

/-- The result of `JSON.parse(event.body)` as far as the handler inspects it: `null`, or any
other value together with its `identity` property. -/
inductive Payload where
  | null
  | value (identity : Option String)
deriving DecidableEq, Repr

/-- The JSON body of a token response. -/
inductive Body where
  | error (message : String)
  | token (token : String) (identity : String)
deriving DecidableEq, Repr

/-- A response of the token function. -/
structure Response where
  statusCode : Nat
  headers : CorsHeaders
  contentType : Option String
  body : Option Body
deriving DecidableEq, Repr

/-- The `TypeError` raised by reading a property of `null`. -/
def nullPropertyError : JsError :=
  { message := some "Cannot read properties of null (reading 'identity')" }

/-- The exported `handler` of `token.js`.  `jsonParse` is `JSON.parse` (`none` when it throws),
`toJwt` is the library's signing of an access token.  `Except.error` is a value thrown out of
the handler. -/
def handler (env : Env) (jsonParse : String → Option Payload)
    (toJwt : AccessToken → Except JsError String) (event : Event) : Except JsError Response :=
  let corsHeaders := buildCorsHeaders env event
  if event.httpMethod = "OPTIONS" then
    .ok { statusCode := 204, headers := corsHeaders, contentType := none, body := none }
  else if event.httpMethod ≠ "POST" then
    .ok { statusCode := 405, headers := corsHeaders, contentType := none,
          body := some (.error "Method Not Allowed") }
  else
    let parsed : Option Payload :=
      if truthy event.body then jsonParse (event.body.getD "") else some (.value none)
    match parsed with
    | none =>
      .ok { statusCode := 400, headers := corsHeaders, contentType := none,
            body := some (.error "Invalid JSON body") }
    | some .null => .error nullPropertyError
    | some (.value identityField) =>
      let identity := orDefault identityField "clickup-user"
      let missing := validateEnv env
      if missing.length > 0 then
        .ok { statusCode := 500, headers := corsHeaders, contentType := none,
              body := some (.error (notConfiguredMessage missing)) }
      else
        match toJwt (createAccessToken env identity) with
        | .ok jwt =>
          .ok { statusCode := 200, headers := corsHeaders,
                contentType := some "application/json", body := some (.token jwt identity) }
        | .error err =>
          .ok { statusCode := 500, headers := corsHeaders, contentType := none,
                body := some (.error (orDefault err.message "Failed to create access token")) }

end NetlifyToken

/-! ## `src/netlify/functions/voice.js` -/

namespace NetlifyVoice

/-- The fields of the function event that the voice handler reads. -/
structure Event where
  httpMethod : String
  body : Option String
  isBase64Encoded : Bool
  queryStringParameters : Option (List (String × String))
deriving DecidableEq, Repr

/-- The local `params` of the handler: `querystring.parse` of the (decoded) body, or `{}`. -/
def bodyParams (querystringParse : String → List (String × Field))
    (base64Decode : String → String) (event : Event) : List (String × Field) :=
  if truthy event.body then
    let rawBody :=
      if event.isBase64Encoded then base64Decode (event.body.getD "") else event.body.getD ""
    querystringParse rawBody
  else
    []

/-- The expression `event.queryStringParameters?.To`. -/
def queryTo (event : Event) : Field :=
  match lookupOptional event.queryStringParameters "To" with
  | some s => .str s
  | none => .undefined

/-- The exported `handler` of `voice.js`; `none` when it throws, which it does when
`buildVoiceResponse` throws. -/
def handler (env : Env) (querystringParse : String → List (String × Field))
    (base64Decode : String → String) (event : Event) : Option VoiceHttpResponse :=
  if event.httpMethod ≠ "POST" then
    some { statusCode := 405, contentType := "text/plain", body := .text "Method Not Allowed" }
  else
    let missing := validateEnv env
    if missing.length > 0 then
      some { statusCode := 500, contentType := "text/plain",
             body := .text (notConfiguredMessage missing) }
    else
      let params := bodyParams querystringParse base64Decode event
      let toNumber := (lookupField params "To").or (queryTo event)
      match buildVoiceResponse env toNumber with
      | some twiml => some { statusCode := 200, contentType := "text/xml", body := .twiml twiml }
      | none => none

end NetlifyVoice

/-! ## `src/src/server.js` -/

namespace Server

/-- An Express request after the body and query middleware: `req.body` and `req.query`, with
the field values that the urlencoded and query-string parsers produce (a JSON body may carry
other JSON values, which are not represented). -/
structure Request where
  body : List (String × Field)
  query : List (String × Field)
deriving DecidableEq, Repr

/-- The route `app.post('/voice', ...)`.  The status stays at its default `200`, and
`res.type('text/xml')` sets the header `Content-Type: text/xml; charset=utf-8`.  When
`buildVoiceResponse` throws, nothing has been sent yet and the default error handler of
Express answers `500` with its error page. -/
def postVoice (env : Env) (req : Request) : VoiceHttpResponse :=
  let toNumber := (lookupField req.body "To").or (lookupField req.query "To")
  match buildVoiceResponse env toNumber with
  | some twiml =>
    { statusCode := 200, contentType := "text/xml; charset=utf-8", body := .twiml twiml }
  | none => { statusCode := 500, contentType := "text/html; charset=utf-8", body := .errorPage }

/-- A response of the route `app.post('/token', ...)`. -/
structure TokenResponse where
  statusCode : Nat
  body : NetlifyToken.Body
deriving DecidableEq, Repr

/-- The route `app.post('/token', ...)`; `identityField` is `req.body.identity`. -/
def postToken (env : Env) (toJwt : AccessToken → Except JsError String)
    (identityField : Option String) : TokenResponse :=
  let identity := orDefault identityField "clickup-user"
  let missing := validateEnv env
  if missing.length > 0 then
    { statusCode := 500, body := .error (notConfiguredMessage missing) }
  else
    match toJwt (createAccessToken env identity) with
    | .ok jwt => { statusCode := 200, body := .token jwt identity }
    | .error err =>
      { statusCode := 500, body := .error (orDefault err.message "Failed to create access token") }

end Server

/-! ## Sample configurations and requests -/

/-- An environment whose allow-list has two entries, written with a blank after the comma. -/
def sampleOriginEnv : Env := fun key =>
  if key = "ALLOWED_ORIGIN" then some "https://a.example, https://b.example" else none

/-- A request from an origin that is not on the allow-list of `sampleOriginEnv`. -/
def sampleOriginEvent : NetlifyToken.Event :=
  { httpMethod := "POST", headers := some [("origin", "https://evil.example")], body := none }

/-- A `POST` to the voice function without body and without query parameters. -/
def bareVoiceEvent : NetlifyVoice.Event :=
  { httpMethod := "POST", body := none, isBase64Encoded := false, queryStringParameters := none }

/-- A complete configuration. -/
def completeEnv : Env := fun key =>
  if key = "TWILIO_ACCOUNT_SID" then some "ACxxxxxxxx"
  else if key = "TWILIO_API_KEY" then some "SKxxxxxxxx"
  else if key = "TWILIO_API_SECRET" then some "secret"
  else if key = "TWILIO_TWIML_APP_SID" then some "APxxxxxxxx"
  else none

/-! ## `src/frontend/src/App.jsx` -/

namespace App

/-- The values taken by the `status` state. -/
inductive Status where
  | idle
  | initializing
  | ready
  | connecting
  | onCall
  | incoming
  | error
deriving DecidableEq, Repr

/-- A device object of the voice SDK; `registerIsFunction` is
`typeof createdDevice.register === 'function'`. -/
structure Device where
  id : Nat
  registerIsFunction : Bool
deriving DecidableEq, Repr

/-- A call object of the voice SDK; `callSid` is `conn.parameters?.call_sid`. -/
structure Connection where
  id : Nat
  callSid : Option String
deriving DecidableEq, Repr

/-- The state held by the component `App` (its eight `useState` cells).  A log entry is its
message; the wall-clock timestamp that `appendLog` attaches is left out. -/
structure Session where
  device : Option Device
  connection : Option Connection
  status : Status
  identity : String
  number : String
  logs : List String
  error : String
  loading : Bool
deriving DecidableEq, Repr

/-- The initial values of the state cells; `defaultIdentity` is the module constant. -/
def initialSession (defaultIdentity : String) : Session :=
  { device := none, connection := none, status := .idle, identity := defaultIdentity,
    number := "", logs := [], error := "", loading := false }

/-- The callback `appendLog`: the new entry is put in front. -/
def appendLog (s : Session) (message : String) : Session :=
  { s with logs := message :: s.logs }

/-- The events a device delivers to the handlers installed by `registerDeviceEvents`. -/
inductive DeviceEvent where
  | registered
  | unregistered
  | error (err : JsError)
  | incoming (incomingConnection : Connection)
  | cancel
  | connect (conn : Connection)
  | disconnect
deriving DecidableEq, Repr

/-- The handlers installed by `registerDeviceEvents`, as one function of the event. -/
def registerDeviceEvents (s : Session) : DeviceEvent → Session
  | .registered => appendLog { s with status := .ready } "Device registered with Twilio"
  | .unregistered => appendLog s "Device unregistered"
  | .error err =>
    let message := orDefault err.message "Unknown Twilio error"
    { (appendLog s ("Device error: " ++ message)) with error := message, status := .error }
  | .incoming incomingConnection =>
    { (appendLog s "Incoming call received") with
      connection := some incomingConnection, status := .incoming }
  | .cancel =>
    { (appendLog s "Incoming call cancelled") with status := .ready, connection := none }
  | .connect conn =>
    { (appendLog s ("Call connected (" ++ orDefault conn.callSid "no SID" ++ ")")) with
      status := .onCall, connection := some conn }
  | .disconnect =>
    { (appendLog s "Call disconnected") with status := .ready, connection := none }

/-- Calls made to the network and to the voice SDK. -/
inductive Effect where
  | fetchToken (identity : String)
  | createDevice (token : Option String)
  | installHandlers (dev : Device)
  | deviceRegister (dev : Device)
  | deviceConnect (dev : Device) (toNumber identity : String)
  | connectionDisconnect (conn : Connection)
  | deviceDisconnectAll (dev : Device)
deriving DecidableEq, Repr

/-- An invocation of `handleCall` suspended at an `await`, with the `number` and `identity`
its closure captured:
`token` at the credential request (`fetch` and `response.json()`),
`create` at `await createDevice()`, `register` at `await createdDevice.register()`,
`connect` at `await dev.connect(...)`. -/
inductive Pending where
  | token (number identity : String)
  | create (number identity : String)
  | register (dev : Device) (number identity : String)
  | connect (dev : Device) (number identity : String)
deriving DecidableEq, Repr

/-- How the credential request ends: `rejected` when `fetch` or `response.json()` of an OK
response rejects, `notOk` for a response with `!response.ok` (with its status and
`payload?.error`), `ok` with the `token` property of the payload. -/
inductive TokenResult where
  | rejected (err : JsError)
  | notOk (status : Nat) (apiError : Option String)
  | ok (token : Option String)
deriving DecidableEq, Repr

/-- How `createDevice()` ends. -/
inductive CreateResult where
  | threw (err : JsError)
  | created (dev : Device)
deriving DecidableEq, Repr

/-- The outcome with which a suspended invocation is resumed; for `register`, `none` is
success. -/
inductive Outcome where
  | token (r : TokenResult)
  | create (r : CreateResult)
  | register (r : Option JsError)
  | connect (r : Except JsError Connection)

/-- The session together with the suspended invocations of `handleCall`, the calls made so
far (oldest first) and the devices the SDK has constructed for this session. -/
structure World where
  session : Session
  pending : List Pending
  effects : List Effect
  created : List Device
deriving DecidableEq, Repr

/-- The world of a freshly mounted component. -/
def initialWorld (defaultIdentity : String) : World :=
  { session := initialSession defaultIdentity, pending := [], effects := [], created := [] }

/-- The mount effect that pre-fills the number from the `number` query parameter. -/
def prefill (w : World) (queryNumber : Option String) : World :=
  if truthy queryNumber then
    { w with session :=
        (appendLog { w.session with number := queryNumber.getD "" }
          ("Pre-filled number from URL: " ++ queryNumber.getD "")) }
  else
    w

/-- The error thrown for a response with `!response.ok`:
`new Error(apiError || 'Token request failed (status)')`. -/
def tokenRequestError (status : Nat) (apiError : Option String) : JsError :=
  { message := some (orDefault apiError ("Token request failed (" ++ toString status ++ ")")) }

/-- The `catch` and `finally` blocks of `ensureDevice`. -/
def ensureDeviceCatch (s : Session) (err : JsError) : Session :=
  let message := orDefault err.message "Unexpected error"
  { (appendLog { s with error := message, status := .error }
      ("Failed to initialize device: " ++ message)) with loading := false }

/-- The `catch` block of `handleCall`. -/
def handleCallCatch (s : Session) (err : JsError) : Session :=
  let message := orDefault err.message "Failed to start call"
  appendLog { s with error := message, status := .error } ("Call failed: " ++ message)

/-- The callback `handleCall` up to its first suspension: the validation of `number`, and
`ensureDevice` either returning the stored device (then `dev.connect` is called) or starting
the credential request. -/
def handleCall (w : World) : World :=
  if w.session.number = "" then
    { w with session :=
        { w.session with error := "Enter a number to dial (E.164, e.g. +14155552671)" } }
  else
    let s := { w.session with error := "" }
    match s.device with
    | some dev =>
      { w with
        session := { s with status := .connecting }
        effects := w.effects ++ [.deviceConnect dev s.number s.identity]
        pending := .connect dev s.number s.identity :: w.pending }
    | none =>
      { w with
        session := { s with loading := true, error := "", status := .initializing }
        effects := w.effects ++ [.fetchToken s.identity]
        pending := .token s.number s.identity :: w.pending }

/-- The callback `handleHangup`. -/
def handleHangup (w : World) : World :=
  let w1 : World :=
    match w.session.connection with
    | some conn =>
      { w with
        session := appendLog w.session "Call disconnected manually"
        effects := w.effects ++ [.connectionDisconnect conn] }
    | none => w
  match w.session.device with
  | some dev => { w1 with effects := w1.effects ++ [.deviceDisconnectAll dev] }
  | none => w1

/-- An error inside `ensureDevice` ends invocation `i`: the `catch` and `finally` blocks of
`ensureDevice`, then the `catch` block of `handleCall` for the rethrown error. -/
def failEnsureDevice (w : World) (i : Nat) (err : JsError) : World :=
  { w with
    session := handleCallCatch (ensureDeviceCatch w.session err) err
    pending := w.pending.eraseIdx i }

/-- The function `ensureDevice` returns `dev` on its slow path (its `finally` block runs) and
`handleCall` goes on to `setStatus('connecting')` and `dev.connect(...)`. -/
def proceedToConnect (w : World) (i : Nat) (dev : Device) (number identity : String) : World :=
  { w with
    session := { w.session with loading := false, status := .connecting }
    effects := w.effects ++ [.deviceConnect dev number identity]
    pending := w.pending.set i (.connect dev number identity) }

/-- Resume the suspended invocation `i` with outcome `o` and run it to its next suspension
or to its end; `none` when there is no such invocation or the outcome is of another kind.
`deviceCreateIsFunction` is `typeof Device.create === 'function'`. -/
def settle (deviceCreateIsFunction : Bool) (w : World) (i : Nat) (o : Outcome) : Option World :=
  match w.pending[i]?, o with
  | some (.token number identity), .token r =>
    match r with
    | .ok token =>
      some { w with
             effects := w.effects ++ [.createDevice token]
             pending := w.pending.set i (.create number identity) }
    | .rejected err => some (failEnsureDevice w i err)
    | .notOk status apiError => some (failEnsureDevice w i (tokenRequestError status apiError))
  | some (.create number identity), .create r =>
    match r with
    | .threw err => some (failEnsureDevice w i err)
    | .created dev =>
      let w1 : World :=
        { w with
          session := appendLog { w.session with device := some dev } "Twilio Device created"
          effects := w.effects ++ [.installHandlers dev]
          created := w.created ++ [dev] }
      if !deviceCreateIsFunction && dev.registerIsFunction then
        some { w1 with
               effects := w1.effects ++ [.deviceRegister dev]
               pending := w1.pending.set i (.register dev number identity) }
      else
        some (proceedToConnect w1 i dev number identity)
  | some (.register dev number identity), .register r =>
    match r with
    | some err => some (failEnsureDevice w i err)
    | none => some (proceedToConnect w i dev number identity)
  | some (.connect _ number _), .connect r =>
    match r with
    | .ok outgoing =>
      some { w with
             session := (appendLog { w.session with connection := some outgoing }
               ("Dialing " ++ number))
             pending := w.pending.eraseIdx i }
    | .error err =>
      some { w with session := handleCallCatch w.session err, pending := w.pending.eraseIdx i }
  | _, _ => none

/-- What can happen to a session: the user presses a button or edits a field, the mount
effect runs, a suspended invocation is resumed, a device delivers an event. -/
inductive Action where
  | pressCall
  | pressHangup
  | editNumber (value : String)
  | editIdentity (value : String)
  | prefill (queryNumber : Option String)
  | settle (i : Nat) (o : Outcome)
  | deviceEvent (dev : Device) (e : DeviceEvent)

/-- The `disabled` attribute of the call button. -/
def callDisabled (s : Session) : Bool :=
  s.loading || s.status == .connecting || s.status == .onCall

/-- The `disabled` attribute of the hang-up button. -/
def hangupDisabled (s : Session) : Bool :=
  s.connection.isNone

/-- The effect of an action when the callbacks are invoked directly, whatever the state of
the buttons.  A device event needs a device on which the handlers were installed. -/
def perform (deviceCreateIsFunction : Bool) (w : World) : Action → Option World
  | .pressCall => some (handleCall w)
  | .pressHangup => some (handleHangup w)
  | .editNumber value => some { w with session := { w.session with number := value } }
  | .editIdentity value => some { w with session := { w.session with identity := value } }
  | .prefill queryNumber => some (prefill w queryNumber)
  | .settle i o => settle deviceCreateIsFunction w i o
  | .deviceEvent dev e =>
    if dev ∈ w.created then some { w with session := registerDeviceEvents w.session e } else none

/-- The effect of an action on the rendered page: a press on a disabled button does nothing
and is not a step. -/
def step (deviceCreateIsFunction : Bool) (w : World) (a : Action) : Option World :=
  match a with
  | .pressCall =>
    if callDisabled w.session then none else perform deviceCreateIsFunction w .pressCall
  | .pressHangup =>
    if hangupDisabled w.session then none else perform deviceCreateIsFunction w .pressHangup
  | a => perform deviceCreateIsFunction w a

/-- Run a sequence of actions on the rendered page. -/
def run (deviceCreateIsFunction : Bool) (w : World) : List Action → Option World
  | [] => some w
  | a :: as =>
    match step deviceCreateIsFunction w a with
    | some w1 => run deviceCreateIsFunction w1 as
    | none => none

/-- The worlds reachable from a freshly mounted component through the rendered page. -/
def Reachable (deviceCreateIsFunction : Bool) (defaultIdentity : String) (w : World) : Prop :=
  ∃ actions, run deviceCreateIsFunction (initialWorld defaultIdentity) actions = some w

/-- Whether a suspended invocation is still inside `ensureDevice`. -/
def Pending.inEnsureDevice : Pending → Bool
  | .token _ _ => true
  | .create _ _ => true
  | .register _ _ _ => true
  | .connect _ _ _ => false

/-- Whether a suspended invocation has not yet obtained a device. -/
def Pending.beforeDevice : Pending → Bool
  | .token _ _ => true
  | .create _ _ => true
  | .register _ _ _ => false
  | .connect _ _ _ => false

/-- Whether a suspended invocation waits for the credential request. -/
def Pending.isToken : Pending → Bool
  | .token _ _ => true
  | _ => false

/-- Number of credential requests in flight. -/
def fetchesInFlight (w : World) : Nat :=
  w.pending.countP Pending.isToken

/-- Number of credential requests made so far. -/
def fetchCount (w : World) : Nat :=
  w.effects.countP (fun e => match e with | .fetchToken _ => true | _ => false)

/-- A device whose `register` is a function. -/
def sampleDevice : Device := { id := 1, registerIsFunction := true }

/-- A call. -/
def sampleConnection : Connection := { id := 7, callSid := some "CA0001" }

/-- The world after the user typed a number into the freshly mounted page. -/
def typedWorld : World :=
  { initialWorld "clickup-agent" with
    session := { initialSession "clickup-agent" with number := "+14155552671" } }

/-- A successful outbound call: the number is typed, call is pressed, the credential arrives,
the device is constructed and registered, `dev.connect` resolves, the device reports
`connect`. -/
def dialActions : List Action :=
  [.editNumber "+14155552671", .pressCall, .settle 0 (.token (.ok (some "jwt"))),
   .settle 0 (.create (.created sampleDevice)), .settle 0 (.register none),
   .settle 0 (.connect (.ok sampleConnection)),
   .deviceEvent sampleDevice (.connect sampleConnection)]

/-- The world at the end of `dialActions`. -/
def onCallWorld : World :=
  { session :=
      { device := some sampleDevice, connection := some sampleConnection, status := .onCall,
        identity := "clickup-agent", number := "+14155552671",
        logs := ["Call connected (CA0001)", "Dialing +14155552671", "Twilio Device created"],
        error := "", loading := false }
    pending := []
    effects :=
      [.fetchToken "clickup-agent", .createDevice (some "jwt"), .installHandlers sampleDevice,
       .deviceRegister sampleDevice, .deviceConnect sampleDevice "+14155552671" "clickup-agent"]
    created := [sampleDevice] }

/-- The invariant of the reachable worlds: at most one invocation of `handleCall` is inside
`ensureDevice`, and `loading` is set while there is one; an invocation that has not yet
obtained a device runs with no device stored, any other with one stored; a connection is
stored only with a device; the stored device is the one device constructed so far. -/
structure Inv (w : World) : Prop where
  atMostOne : w.pending.countP Pending.inEnsureDevice ≤ 1
  loading : 0 < w.pending.countP Pending.inEnsureDevice → w.session.loading = true
  noDevice : ∀ t ∈ w.pending, t.beforeDevice = true → w.session.device = none
  hasDevice : ∀ t ∈ w.pending, t.beforeDevice = false → w.session.device ≠ none
  connection : w.session.connection ≠ none → w.session.device ≠ none
  created : w.created = w.session.device.toList

end App

end Dialer

/-! # Properties -/

namespace Dialer

/-- The method call `s.split(',')` never returns an empty array. -/
theorem splitCommaChars_ne_nil (cs : List Char) : splitCommaChars cs ≠ [] := by
  cases cs with
  | nil => simp [splitCommaChars]
  | cons c cs =>
    simp only [splitCommaChars]
    split
    · simp
    · split <;> simp

/-- The allow-list of the token function is never empty. -/
theorem getAllowedOrigins_ne_nil (env : Env) : NetlifyToken.getAllowedOrigins env ≠ [] := by
  unfold NetlifyToken.getAllowedOrigins
  split
  · simp
  · split
    · simp [jsSplitComma, splitCommaChars_ne_nil]
    · simp

/-- C1: the `Access-Control-Allow-Origin` header computed by `buildCorsHeaders` is `*` when
`ALLOWED_ORIGIN` is not configured and when the allow-list (the comma-split, trimmed value
of `ALLOWED_ORIGIN`) contains `*`; otherwise a supplied request origin that is on the
allow-list is echoed, and for one that is not the header is the first allow-list entry. -/
theorem buildCorsHeaders_allow_origin (env : Env) (event : NetlifyToken.Event) :
    (truthy (env "ALLOWED_ORIGIN") = false →
      (NetlifyToken.buildCorsHeaders env event).allowOrigin = some "*") ∧
    (∀ s, env "ALLOWED_ORIGIN" = some s → s ≠ "" →
      NetlifyToken.getAllowedOrigins env = (jsSplitComma s).map jsTrim) ∧
    ("*" ∈ NetlifyToken.getAllowedOrigins env →
      (NetlifyToken.buildCorsHeaders env event).allowOrigin = some "*") ∧
    ("*" ∉ NetlifyToken.getAllowedOrigins env →
      ∀ o, NetlifyToken.requestOrigin event = some o → o ≠ "" →
        (o ∈ NetlifyToken.getAllowedOrigins env →
          (NetlifyToken.buildCorsHeaders env event).allowOrigin = some o) ∧
        (o ∉ NetlifyToken.getAllowedOrigins env →
          ∃ first rest, NetlifyToken.getAllowedOrigins env = first :: rest ∧
            (NetlifyToken.buildCorsHeaders env event).allowOrigin = some first)) := by
  refine ⟨?_, ?_, ?_, ?_⟩
  · intro h
    simp [NetlifyToken.buildCorsHeaders, NetlifyToken.getAllowedOrigins, h]
  · intro s hs hne
    simp [NetlifyToken.getAllowedOrigins, hs, truthy, hne]
  · intro h
    simp [NetlifyToken.buildCorsHeaders, h]
  · intro hstar o ho hne
    have ht : truthy (some o) = true := by simp [truthy, hne]
    constructor
    · intro hmem
      simp [NetlifyToken.buildCorsHeaders, hstar, ho, ht, hmem]
    · intro hmem
      cases hl : NetlifyToken.getAllowedOrigins env with
      | nil => exact absurd hl (getAllowedOrigins_ne_nil env)
      | cons first rest =>
        refine ⟨first, rest, rfl, ?_⟩
        rw [hl] at hstar hmem
        simp only [NetlifyToken.buildCorsHeaders, hl, ho, ht]
        simp [hstar, hmem]

/-- C1 at a concrete allow-list: an origin that is not listed gets the first entry, trimmed. -/
theorem buildCorsHeaders_allow_origin_witness :
    (NetlifyToken.buildCorsHeaders sampleOriginEnv sampleOriginEvent).allowOrigin
      = some "https://a.example" := by
  have hl : NetlifyToken.getAllowedOrigins sampleOriginEnv
      = ["https://a.example", "https://b.example"] := by decide
  obtain ⟨first, rest, hfirst, hhead⟩ :=
    ((buildCorsHeaders_allow_origin sampleOriginEnv sampleOriginEvent).2.2.2 (by decide)
      "https://evil.example" (by decide) (by decide)).2 (by decide)
  rw [hl] at hfirst
  have hf : first = "https://a.example" := by
    have := List.head_eq_of_cons_eq hfirst
    exact this.symm
  rw [hhead, hf]

/-! ## Configuration check and credential issuance -/

/-- The list returned by `validateEnv` is empty exactly when the four required values are
present and non-empty. -/
theorem validateEnv_eq_nil_iff (env : Env) :
    validateEnv env = [] ↔
      truthy (env "TWILIO_ACCOUNT_SID") = true ∧ truthy (env "TWILIO_API_KEY") = true ∧
      truthy (env "TWILIO_API_SECRET") = true ∧ truthy (env "TWILIO_TWIML_APP_SID") = true := by
  simp [validateEnv, requiredEnv, List.filter_eq_nil_iff]

/-- Every required key whose value is absent or empty is in the list of `validateEnv`, which
lists keys in the order of `requiredEnv`. -/
theorem validateEnv_complete (env : Env) :
    (∀ key ∈ requiredEnv, truthy (env key) = false → key ∈ validateEnv env) ∧
    (validateEnv env).Sublist requiredEnv := by
  constructor
  · intro key hkey hmissing
    simp [validateEnv, List.mem_filter, hkey, hmissing]
  · exact List.filter_sublist _

/-- With a body that is absent, empty, or parses to a value other than `null`, a `POST` to the
token function with incomplete configuration is answered `500` with the message that lists
the missing keys, whatever the signing function is. -/
theorem token_handler_not_configured (env : Env) (jsonParse : String → Option NetlifyToken.Payload)
    (toJwt : AccessToken → Except JsError String) (event : NetlifyToken.Event)
    (identityField : Option String)
    (hpost : event.httpMethod = "POST")
    (hbody : (if truthy event.body then jsonParse (event.body.getD "")
      else some (.value none)) = some (.value identityField))
    (hmissing : validateEnv env ≠ []) :
    NetlifyToken.handler env jsonParse toJwt event =
      .ok { statusCode := 500, headers := NetlifyToken.buildCorsHeaders env event,
            contentType := none,
            body := some (.error (notConfiguredMessage (validateEnv env))) } := by
  have hlen : 0 < (validateEnv env).length := List.length_pos.mpr hmissing
  have h1 : event.httpMethod ≠ "OPTIONS" := by rw [hpost]; decide
  simp only [NetlifyToken.handler, hbody]
  simp [h1, hpost, hlen]

/-- The server answers a `POST /token` with incomplete configuration `500` with the message
that lists the missing keys, whatever the signing function is. -/
theorem server_token_not_configured (env : Env) (toJwt : AccessToken → Except JsError String)
    (identityField : Option String) (hmissing : validateEnv env ≠ []) :
    Server.postToken env toJwt identityField =
      { statusCode := 500, body := .error (notConfiguredMessage (validateEnv env)) } := by
  have hlen : 0 < (validateEnv env).length := List.length_pos.mpr hmissing
  simp [Server.postToken, hlen]

/-- C2 (failing input): a `POST` to the token function whose body is the JSON text `null` passes
`JSON.parse`, and the handler then throws on `payload.identity` before it reaches the
configuration check, whatever the configuration is. -/
theorem token_handler_null_body_throws (env : Env)
    (jsonParse : String → Option NetlifyToken.Payload)
    (toJwt : AccessToken → Except JsError String) (headers : Option (List (String × String)))
    (hparse : jsonParse "null" = some .null) :
    NetlifyToken.handler env jsonParse toJwt
        { httpMethod := "POST", headers := headers, body := some "null" }
      = .error NetlifyToken.nullPropertyError := by
  have ht : truthy (some "null") = true := by decide
  simp [NetlifyToken.handler, ht, hparse]

/-- C2 (failing input) with no configuration at all: the handler throws instead of answering
`500` with the four missing keys. -/
theorem token_handler_null_body_throws_witness :
    validateEnv (fun _ => none) = requiredEnv ∧
    NetlifyToken.handler (fun _ => none)
        (fun body => if body = "null" then some .null else none) (fun _ => .ok "jwt")
        { httpMethod := "POST", headers := none, body := some "null" }
      = .error NetlifyToken.nullPropertyError :=
  ⟨by decide, token_handler_null_body_throws _ _ _ _ (by decide)⟩

/-! ## Routing documents and the `/voice` endpoint -/

/-- C3: `buildVoiceResponse` depends only on the destination and on `TWILIO_CALLER_ID`; for an
absent or empty destination the document is one `say` verb with the fixed message and no
`dial` verb; for a non-empty destination `d` it is one `dial` verb to `d` and no `say` verb,
with the configured caller-ID when there is a non-empty one and without the attribute
otherwise, and the attribute is never the empty string. -/
theorem buildVoiceResponse_spec (env : Env) :
    (∀ env0 : Env, ∀ toNumber, env0 "TWILIO_CALLER_ID" = env "TWILIO_CALLER_ID" →
      buildVoiceResponse env0 toNumber = buildVoiceResponse env toNumber) ∧
    (∀ toNumber, toNumber = Field.undefined ∨ toNumber = Field.str "" →
      buildVoiceResponse env toNumber = some [Verb.say "Missing destination number."] ∧
      (buildVoiceResponse env toNumber).map sayCount = some 1 ∧
      (buildVoiceResponse env toNumber).map dialCount = some 0) ∧
    (∀ d, d ≠ "" →
      (buildVoiceResponse env (.str d)).map sayCount = some 0 ∧
      (buildVoiceResponse env (.str d)).map dialCount = some 1 ∧
      (∀ c, env "TWILIO_CALLER_ID" = some c → c ≠ "" →
        buildVoiceResponse env (.str d) = some [Verb.dial (some c) d]) ∧
      (truthy (env "TWILIO_CALLER_ID") = false →
        buildVoiceResponse env (.str d) = some [Verb.dial none d]) ∧
      (∀ doc c n, buildVoiceResponse env (.str d) = some doc → Verb.dial c n ∈ doc →
        c ≠ some "")) := by
  refine ⟨?_, ?_, ?_⟩
  · intro env0 toNumber h
    simp [buildVoiceResponse, h]
  · intro toNumber h
    rcases h with h | h <;> subst h <;>
      simp [buildVoiceResponse, Field.truthy, sayCount, dialCount]
  · intro d hd
    have ht : (Field.str d).truthy = true := by simp [Field.truthy, hd]
    refine ⟨?_, ?_, ?_, ?_, ?_⟩
    · simp [buildVoiceResponse, ht, sayCount]
    · simp [buildVoiceResponse, ht, dialCount]
    · intro c hc hne
      simp [buildVoiceResponse, ht, hc, jsOr, truthy, hne]
    · intro h
      simp [buildVoiceResponse, ht, jsOr, h]
    · intro doc c n hdoc hmem
      simp only [buildVoiceResponse, ht, jsOr] at hdoc
      cases hcid : env "TWILIO_CALLER_ID" with
      | none =>
        simp [hcid, truthy] at hdoc
        subst hdoc
        simp at hmem
        simp [hmem.1]
      | some v =>
        by_cases hv : v = ""
        · simp [hcid, truthy, hv] at hdoc
          subst hdoc
          simp at hmem
          simp [hmem.1]
        · simp [hcid, truthy, hv] at hdoc
          subst hdoc
          simp at hmem
          simp [hmem.1, hv]

/-- C3 at the destination `+14155552671` with the caller-ID `+15005550006` configured. -/
theorem buildVoiceResponse_spec_witness :
    buildVoiceResponse (fun key => if key = "TWILIO_CALLER_ID" then some "+15005550006" else none)
        (.str "+14155552671")
      = some [Verb.dial (some "+15005550006") "+14155552671"] :=
  ((buildVoiceResponse_spec _).2.2 "+14155552671" (by decide)).2.2.1 "+15005550006"
    (by decide) (by decide)

/-- C4 (counterexample): with no configuration, a `POST` to the voice function in which `To` is
missing from the body and from the query string is answered `500` with a plain-text message,
not `200` with the routing document of an absent destination. -/
theorem voice_missing_to_not_configured :
    lookupField (NetlifyVoice.bodyParams (fun _ => []) id bareVoiceEvent) "To" = Field.undefined ∧
    NetlifyVoice.queryTo bareVoiceEvent = Field.undefined ∧
    NetlifyVoice.handler (fun _ => none) (fun _ => []) id bareVoiceEvent =
      some { statusCode := 500, contentType := "text/plain",
             body := .text ("Twilio environment variables not configured: TWILIO_ACCOUNT_SID, "
               ++ "TWILIO_API_KEY, TWILIO_API_SECRET, TWILIO_TWIML_APP_SID") } ∧
    (NetlifyVoice.handler (fun _ => none) (fun _ => []) id bareVoiceEvent).map
      (fun r => r.statusCode) ≠ some 200 := by
  decide

/-- C4 (amended): when the four required configuration values are present, a `POST /voice`
request in which `To` is missing from the body and from the query string is answered, by the
function and by the server, `200` with content type `text/xml` (which the server sends as
`text/xml; charset=utf-8`) and the serialized document that `buildVoiceResponse` returns for
an absent destination (one `say` verb, no `dial` verb); a non-empty `To` of the body is the
destination whatever the query string holds, and the `To` of the query string is the
destination when the body has none or an empty one. -/
theorem voice_missing_to (env : Env) (querystringParse : String → List (String × Field))
    (base64Decode : String → String) (event : NetlifyVoice.Event) (req : Server.Request)
    (hconfigured : validateEnv env = []) (hpost : event.httpMethod = "POST") :
    (lookupField (NetlifyVoice.bodyParams querystringParse base64Decode event) "To"
        = Field.undefined →
      NetlifyVoice.queryTo event = Field.undefined →
      ∃ doc, buildVoiceResponse env Field.undefined = some doc ∧
        NetlifyVoice.handler env querystringParse base64Decode event =
          some { statusCode := 200, contentType := "text/xml", body := .twiml doc }) ∧
    (lookupField req.body "To" = Field.undefined →
      lookupField req.query "To" = Field.undefined →
      ∃ doc, buildVoiceResponse env Field.undefined = some doc ∧
        Server.postVoice env req =
          { statusCode := 200, contentType := "text/xml; charset=utf-8", body := .twiml doc }) ∧
    (buildVoiceResponse env Field.undefined = some [Verb.say "Missing destination number."] ∧
      (buildVoiceResponse env Field.undefined).map sayCount = some 1 ∧
      (buildVoiceResponse env Field.undefined).map dialCount = some 0) ∧
    (∀ d, d ≠ "" →
      (lookupField (NetlifyVoice.bodyParams querystringParse base64Decode event) "To"
          = Field.str d →
        ∃ doc, buildVoiceResponse env (Field.str d) = some doc ∧
          NetlifyVoice.handler env querystringParse base64Decode event =
            some { statusCode := 200, contentType := "text/xml", body := .twiml doc }) ∧
      (lookupField req.body "To" = Field.str d →
        ∃ doc, buildVoiceResponse env (Field.str d) = some doc ∧
          Server.postVoice env req =
            { statusCode := 200, contentType := "text/xml; charset=utf-8",
              body := .twiml doc })) ∧
    ((lookupField (NetlifyVoice.bodyParams querystringParse base64Decode event) "To").truthy
        = false →
      ∃ doc, buildVoiceResponse env (NetlifyVoice.queryTo event) = some doc ∧
        NetlifyVoice.handler env querystringParse base64Decode event =
          some { statusCode := 200, contentType := "text/xml", body := .twiml doc }) ∧
    ((lookupField req.body "To").truthy = false →
      ∀ q, lookupField req.query "To" = Field.str q →
        ∃ doc, buildVoiceResponse env (Field.str q) = some doc ∧
          Server.postVoice env req =
            { statusCode := 200, contentType := "text/xml; charset=utf-8",
              body := .twiml doc }) := by
  have hstr : ∀ q : String, ∃ doc, buildVoiceResponse env (Field.str q) = some doc := by
    intro q
    by_cases hq : q = ""
    · exact ⟨_, by simp [buildVoiceResponse, Field.truthy, hq]; rfl⟩
    · exact ⟨_, by simp [buildVoiceResponse, Field.truthy, hq]; rfl⟩
  have hundef : buildVoiceResponse env Field.undefined
      = some [Verb.say "Missing destination number."] := by
    simp [buildVoiceResponse, Field.truthy]
  refine ⟨?_, ?_, ?_, ?_, ?_, ?_⟩
  · intro hb hq
    refine ⟨_, hundef, ?_⟩
    simp [NetlifyVoice.handler, hpost, hconfigured, hb, hq, Field.or, Field.truthy, hundef]
  · intro hb hq
    refine ⟨_, hundef, ?_⟩
    simp [Server.postVoice, hb, hq, Field.or, Field.truthy, hundef]
  · simp [buildVoiceResponse, Field.truthy, sayCount, dialCount]
  · intro d hd
    obtain ⟨doc, hdoc⟩ := hstr d
    constructor
    · intro hb
      refine ⟨doc, hdoc, ?_⟩
      simp [NetlifyVoice.handler, hpost, hconfigured, hb, Field.or, Field.truthy, hd, hdoc]
    · intro hb
      refine ⟨doc, hdoc, ?_⟩
      simp [Server.postVoice, hb, Field.or, Field.truthy, hd, hdoc]
  · intro hb
    have hq : ∃ doc, buildVoiceResponse env (NetlifyVoice.queryTo event) = some doc := by
      unfold NetlifyVoice.queryTo
      split
      · exact hstr _
      · exact ⟨_, hundef⟩
    obtain ⟨doc, hdoc⟩ := hq
    refine ⟨doc, hdoc, ?_⟩
    simp [NetlifyVoice.handler, hpost, hconfigured, hb, Field.or, hdoc]
  · intro hb q hq
    obtain ⟨doc, hdoc⟩ := hstr q
    refine ⟨doc, hdoc, ?_⟩
    simp [Server.postVoice, hb, hq, Field.or, hdoc]

/-- C4 (amended) with a complete configuration and a bare `POST`: the function answers with
the document of an absent destination. -/
theorem voice_missing_to_witness :
    NetlifyVoice.handler completeEnv (fun _ => []) id bareVoiceEvent =
      some { statusCode := 200, contentType := "text/xml",
             body := .twiml [Verb.say "Missing destination number."] } := by
  obtain ⟨doc, hdoc, hres⟩ :=
    (voice_missing_to completeEnv (fun _ => []) id bareVoiceEvent { body := [], query := [] }
      (by decide) (by decide)).1 (by decide) (by decide)
  have hsay : buildVoiceResponse completeEnv Field.undefined
      = some [Verb.say "Missing destination number."] := by decide
  rw [hsay] at hdoc
  rw [hres, ← Option.some.inj hdoc]

/-- C5 (failing input): with no configuration at all, the server answers a `POST /voice` for
the destination `+14155552671` with `200` and a routing document that dials it, while the
function answers the same request `500` with a plain-text message. -/
theorem server_voice_ignores_configuration :
    validateEnv (fun _ => none) = requiredEnv ∧
    Server.postVoice (fun _ => none)
        { body := [("To", Field.str "+14155552671")], query := [] } =
      { statusCode := 200, contentType := "text/xml; charset=utf-8",
        body := .twiml [Verb.dial none "+14155552671"] } ∧
    (NetlifyVoice.handler (fun _ => none) (fun _ => [("To", Field.str "+14155552671")]) id
        { httpMethod := "POST", body := some "To=%2B14155552671", isBase64Encoded := false,
          queryStringParameters := none }).map (fun r => r.statusCode) = some 500 := by
  decide

/-- A repeated `To` in the query string of a server request makes `buildVoiceResponse` throw,
and the request is answered `500`. -/
theorem server_voice_repeated_to :
    Server.postVoice completeEnv
        { body := [], query := [("To", Field.list ["+14155552671", "+14155552672"])] } =
      { statusCode := 500, contentType := "text/html; charset=utf-8", body := .errorPage } := by
  decide

/-! ## The session -/

namespace App

/-- A list with an element at index `i` splits around it, and so do `set` and `eraseIdx`. -/
theorem pending_split {α : Type} (l : List α) (i : Nat) (t : α) (h : l[i]? = some t) :
    ∃ l₁ l₂, l = l₁ ++ t :: l₂ ∧ (∀ t0, l.set i t0 = l₁ ++ t0 :: l₂) ∧
      l.eraseIdx i = l₁ ++ l₂ := by
  induction l generalizing i with
  | nil => simp at h
  | cons a l ih =>
    cases i with
    | zero =>
      simp at h
      subst h
      exact ⟨[], l, by simp, by simp, by simp⟩
    | succ i =>
      simp at h
      obtain ⟨l₁, l₂, h1, h2, h3⟩ := ih i h
      refine ⟨a :: l₁, l₂, ?_, ?_, ?_⟩
      · rw [h1]; simp
      · intro t0; simp [h2]
      · simp [h3]

@[simp]
theorem ensureDeviceCatch_device (s : Session) (err : JsError) :
    (ensureDeviceCatch s err).device = s.device := rfl

@[simp]
theorem ensureDeviceCatch_connection (s : Session) (err : JsError) :
    (ensureDeviceCatch s err).connection = s.connection := rfl

@[simp]
theorem ensureDeviceCatch_loading (s : Session) (err : JsError) :
    (ensureDeviceCatch s err).loading = false := rfl

@[simp]
theorem handleCallCatch_device (s : Session) (err : JsError) :
    (handleCallCatch s err).device = s.device := rfl

@[simp]
theorem handleCallCatch_connection (s : Session) (err : JsError) :
    (handleCallCatch s err).connection = s.connection := rfl

@[simp]
theorem handleCallCatch_loading (s : Session) (err : JsError) :
    (handleCallCatch s err).loading = s.loading := rfl

@[simp]
theorem handleCallCatch_status (s : Session) (err : JsError) :
    (handleCallCatch s err).status = Status.error := rfl

@[simp]
theorem handleCallCatch_error (s : Session) (err : JsError) :
    (handleCallCatch s err).error = orDefault err.message "Failed to start call" := rfl

/-- A change of the world that keeps the suspended invocations, the constructed devices,
`device` and `loading`, and stores a connection only with a device, keeps the invariant. -/
theorem Inv.congr {w w1 : World} (h : Inv w) (hp : w1.pending = w.pending)
    (hc : w1.created = w.created) (hdev : w1.session.device = w.session.device)
    (hload : w1.session.loading = w.session.loading)
    (hconn : w1.session.connection ≠ none → w1.session.device ≠ none) : Inv w1 where
  atMostOne := by rw [hp]; exact h.atMostOne
  loading := by rw [hp, hload]; exact h.loading
  noDevice := by rw [hp, hdev]; exact h.noDevice
  hasDevice := by rw [hp, hdev]; exact h.hasDevice
  connection := hconn
  created := by rw [hc, hdev]; exact h.created

/-- The freshly mounted component satisfies the invariant. -/
theorem Inv.initial (defaultIdentity : String) : Inv (initialWorld defaultIdentity) where
  atMostOne := by simp [initialWorld]
  loading := by simp [initialWorld]
  noDevice := by simp [initialWorld]
  hasDevice := by simp [initialWorld]
  connection := by simp [initialWorld, initialSession]
  created := by simp [initialWorld, initialSession]

/-- A press on the enabled call button keeps the invariant. -/
theorem Inv.handleCall {w : World} (h : Inv w) (hen : callDisabled w.session = false) :
    Inv (handleCall w) := by
  have hload : w.session.loading = false := by
    simp [callDisabled] at hen
    exact hen.1.1
  have hzero : w.pending.countP Pending.inEnsureDevice = 0 := by
    by_contra hne
    have := h.loading (Nat.pos_of_ne_zero hne)
    simp [hload] at this
  unfold App.handleCall
  split
  · exact h.congr rfl rfl rfl rfl h.connection
  · cases hdev : w.session.device with
    | some dev =>
      simp only [hdev]
      constructor
      · simpa [Pending.inEnsureDevice] using h.atMostOne
      · simpa [Pending.inEnsureDevice] using h.loading
      · intro t ht hb
        simp at ht
        rcases ht with ht | ht
        · subst ht; simp [Pending.beforeDevice] at hb
        · simpa [hdev] using h.noDevice t ht hb
      · intro t _ _
        simp [hdev]
      · intro _
        simp [hdev]
      · simpa [hdev] using h.created
    | none =>
      simp only [hdev]
      constructor
      · simp [Pending.inEnsureDevice, hzero]
      · simp
      · intro t _ _
        simp [hdev]
      · intro t ht hb
        simp at ht
        rcases ht with ht | ht
        · subst ht; simp [Pending.beforeDevice] at hb
        · exact absurd hdev (h.hasDevice t ht hb)
      · intro hc
        exact absurd hdev (h.connection (by simpa using hc))
      · simpa [hdev] using h.created

/-- The hang-up callback keeps the invariant. -/
theorem Inv.handleHangup {w : World} (h : Inv w) : Inv (handleHangup w) := by
  unfold App.handleHangup
  cases hconn : w.session.connection <;> cases hdev : w.session.device <;>
    simp only [] <;>
    refine h.congr rfl rfl ?_ ?_ ?_ <;> simp [appendLog, hdev, hconn]
  exact absurd hdev (h.connection (by simp [hconn]))

@[simp]
theorem inEnsureDevice_token (number identity : String) :
    (Pending.token number identity).inEnsureDevice = true := rfl

@[simp]
theorem inEnsureDevice_create (number identity : String) :
    (Pending.create number identity).inEnsureDevice = true := rfl

@[simp]
theorem inEnsureDevice_register (dev : Device) (number identity : String) :
    (Pending.register dev number identity).inEnsureDevice = true := rfl

@[simp]
theorem inEnsureDevice_connect (dev : Device) (number identity : String) :
    (Pending.connect dev number identity).inEnsureDevice = false := rfl

@[simp]
theorem beforeDevice_token (number identity : String) :
    (Pending.token number identity).beforeDevice = true := rfl

@[simp]
theorem beforeDevice_create (number identity : String) :
    (Pending.create number identity).beforeDevice = true := rfl

@[simp]
theorem beforeDevice_register (dev : Device) (number identity : String) :
    (Pending.register dev number identity).beforeDevice = false := rfl

@[simp]
theorem beforeDevice_connect (dev : Device) (number identity : String) :
    (Pending.connect dev number identity).beforeDevice = false := rfl

/-- When the invariant holds and invocation `t` is inside `ensureDevice`, no other one is. -/
theorem Inv.others {w : World} (h : Inv w) {l₁ l₂ : List Pending} {t : Pending}
    (hp : w.pending = l₁ ++ t :: l₂) (hin : t.inEnsureDevice = true) :
    l₁.countP Pending.inEnsureDevice = 0 ∧ l₂.countP Pending.inEnsureDevice = 0 := by
  have h1 := h.atMostOne
  rw [hp] at h1
  simp only [List.countP_append, List.countP_cons, hin, if_true] at h1
  omega

/-- An error inside `ensureDevice` keeps the invariant. -/
theorem Inv.failEnsureDevice {w : World} (h : Inv w) (i : Nat) (t : Pending) (err : JsError)
    (ht : w.pending[i]? = some t) (hin : t.inEnsureDevice = true) :
    Inv (failEnsureDevice w i err) := by
  obtain ⟨l₁, l₂, hp, _, herase⟩ := pending_split _ _ _ ht
  obtain ⟨hz1, hz2⟩ := h.others hp hin
  have h3 := h.noDevice
  have h4 := h.hasDevice
  rw [hp] at h3 h4
  constructor
  · simp only [App.failEnsureDevice, herase, List.countP_append, hz1, hz2]
    omega
  · simp only [App.failEnsureDevice, herase, List.countP_append, hz1, hz2]
    intro hpos
    omega
  · intro t0 ht0 hb
    simp [App.failEnsureDevice, herase] at ht0 ⊢
    exact h3 t0 (by simp; tauto) hb
  · intro t0 ht0 hb
    simp [App.failEnsureDevice, herase] at ht0 ⊢
    exact h4 t0 (by simp; tauto) hb
  · simpa [App.failEnsureDevice] using h.connection
  · simpa [App.failEnsureDevice] using h.created

/-- An invocation that has not yet obtained a device is inside `ensureDevice`. -/
theorem inEnsureDevice_of_beforeDevice (t : Pending) (h : t.beforeDevice = true) :
    t.inEnsureDevice = true := by
  cases t <;> simp_all

/-- The credential arrives: invocation `i` moves from the request to `createDevice()`. -/
theorem Inv.tokenArrived {w w1 : World} (h : Inv w) (i : Nat) (number identity : String)
    (ht : w.pending[i]? = some (.token number identity))
    (hp : w1.pending = w.pending.set i (.create number identity))
    (hs : w1.session = w.session) (hc : w1.created = w.created) : Inv w1 := by
  obtain ⟨l₁, l₂, hsplit, hset, _⟩ := pending_split _ _ _ ht
  obtain ⟨hz1, hz2⟩ := h.others hsplit rfl
  have h2 := h.loading
  have h3 := h.noDevice
  have h4 := h.hasDevice
  rw [hsplit] at h2 h3 h4
  simp only [List.countP_append, List.countP_cons, hz1, hz2, inEnsureDevice_token] at h2
  constructor
  · rw [hp, hset]
    simp [List.countP_append, List.countP_cons, hz1, hz2]
  · rw [hp, hset, hs]
    intro _
    exact h2 (by simp)
  · rw [hp, hset, hs]
    intro t0 ht0 hb
    simp at ht0
    rcases ht0 with ht0 | ht0 | ht0
    · exact h3 t0 (by simp [ht0]) hb
    · exact h3 (.token number identity) (by simp) rfl
    · exact h3 t0 (by simp [ht0]) hb
  · rw [hp, hset, hs]
    intro t0 ht0 hb
    simp at ht0
    rcases ht0 with ht0 | ht0 | ht0
    · exact h4 t0 (by simp [ht0]) hb
    · subst ht0; simp at hb
    · exact h4 t0 (by simp [ht0]) hb
  · rw [hs]; exact h.connection
  · rw [hc, hs]; exact h.created

/-- Invocation `t`, inside `ensureDevice`, is replaced by one that holds a device, in a world
that stores a device. -/
theorem Inv.advance {w w1 : World} (h : Inv w) {l₁ l₂ : List Pending} {t : Pending}
    (t1 : Pending) (hsplit : w.pending = l₁ ++ t :: l₂) (hin : t.inEnsureDevice = true)
    (hp : w1.pending = l₁ ++ t1 :: l₂) (hb1 : t1.beforeDevice = false)
    (hdev : w1.session.device ≠ none) (hc : w1.created = w1.session.device.toList)
    (hl : t1.inEnsureDevice = true → w1.session.loading = true) : Inv w1 := by
  obtain ⟨hz1, hz2⟩ := h.others hsplit hin
  constructor
  · rw [hp]
    simp only [List.countP_append, List.countP_cons, hz1, hz2]
    split <;> simp
  · rw [hp]
    simp only [List.countP_append, List.countP_cons, hz1, hz2]
    intro hpos
    apply hl
    by_contra hne
    simp [hne] at hpos
  · rw [hp]
    intro t0 ht0 hb
    have hin0 := inEnsureDevice_of_beforeDevice t0 hb
    simp at ht0
    rcases ht0 with ht0 | ht0 | ht0
    · have := List.countP_eq_zero.mp hz1 t0 ht0
      simp [hin0] at this
    · subst ht0; simp [hb1] at hb
    · have := List.countP_eq_zero.mp hz2 t0 ht0
      simp [hin0] at this
  · intro _ _ _
    exact hdev
  · intro _
    exact hdev
  · exact hc

/-- Invocation `t`, which holds a device, ends. -/
theorem Inv.finish {w w1 : World} (h : Inv w) (i : Nat) (t : Pending)
    (ht : w.pending[i]? = some t) (hin : t.inEnsureDevice = false)
    (hp : w1.pending = w.pending.eraseIdx i) (hc : w1.created = w.created)
    (hdev : w1.session.device = w.session.device)
    (hload : w1.session.loading = w.session.loading) : Inv w1 := by
  obtain ⟨l₁, l₂, hsplit, _, herase⟩ := pending_split _ _ _ ht
  have h1 := h.atMostOne
  have h2 := h.loading
  have h3 := h.noDevice
  have h4 := h.hasDevice
  rw [hsplit] at h1 h2 h3 h4
  simp only [List.countP_append, List.countP_cons, hin] at h1 h2
  have hbt : t.beforeDevice = false := by
    cases t <;> simp_all
  constructor
  · rw [hp, herase]
    simpa [List.countP_append] using h1
  · rw [hp, herase, hload]
    simpa [List.countP_append] using h2
  · rw [hp, herase, hdev]
    intro t0 ht0 hb
    exact h3 t0 (by simp at ht0 ⊢; tauto) hb
  · rw [hp, herase, hdev]
    intro t0 ht0 hb
    exact h4 t0 (by simp at ht0 ⊢; tauto) hb
  · intro _
    rw [hdev]
    exact h4 t (by simp) hbt
  · rw [hc, hdev]; exact h.created

/-- Resuming a suspended invocation keeps the invariant. -/
theorem Inv.settle {deviceCreateIsFunction : Bool} {w w1 : World} {i : Nat} {o : Outcome}
    (h : Inv w) (hs : settle deviceCreateIsFunction w i o = some w1) : Inv w1 := by
  unfold App.settle at hs
  split at hs
  · rename_i number identity r hpend
    split at hs <;> simp only [Option.some.injEq] at hs <;> subst hs
    · exact h.tokenArrived i number identity hpend rfl rfl rfl
    · exact h.failEnsureDevice i _ _ hpend rfl
    · exact h.failEnsureDevice i _ _ hpend rfl
  · rename_i number identity r hpend
    split at hs
    · simp only [Option.some.injEq] at hs
      subst hs
      exact h.failEnsureDevice i _ _ hpend rfl
    · rename_i dev
      obtain ⟨l₁, l₂, hsplit, hset, _⟩ := pending_split _ _ _ hpend
      have hnodev : w.session.device = none :=
        h.noDevice _ (by rw [hsplit]; simp) (beforeDevice_create number identity)
      have hcr : w.created = [] := by simpa [hnodev] using h.created
      have hload : w.session.loading = true := by
        apply h.loading
        rw [hsplit]
        simp [List.countP_append, List.countP_cons]
      split at hs <;> simp only [Option.some.injEq] at hs <;> subst hs
      · exact h.advance (.register dev number identity) hsplit rfl
          (by simp [hset]) rfl (by simp [appendLog]) (by simp [appendLog, hcr])
          (by intro _; simpa [appendLog] using hload)
      · exact h.advance (.connect dev number identity) hsplit rfl
          (by simp [App.proceedToConnect, hset]) rfl
          (by simp [App.proceedToConnect, appendLog])
          (by simp [App.proceedToConnect, appendLog, hcr]) (by simp)
  · rename_i dev number identity r hpend
    obtain ⟨l₁, l₂, hsplit, hset, _⟩ := pending_split _ _ _ hpend
    have hdev : w.session.device ≠ none :=
      h.hasDevice _ (by rw [hsplit]; simp) (beforeDevice_register dev number identity)
    split at hs <;> simp only [Option.some.injEq] at hs <;> subst hs
    · exact h.failEnsureDevice i _ _ hpend rfl
    · exact h.advance (.connect dev number identity) hsplit rfl
        (by simp [App.proceedToConnect, hset]) rfl
        (by simpa [App.proceedToConnect] using hdev)
        (by simpa [App.proceedToConnect] using h.created) (by simp)
  · rename_i dev number identity r hpend
    split at hs <;> simp only [Option.some.injEq] at hs <;> subst hs
    · exact h.finish i _ hpend rfl rfl rfl rfl rfl
    · exact h.finish i _ hpend rfl rfl rfl rfl rfl
  · simp at hs

/-- A device event keeps the invariant when the device was constructed for this session. -/
theorem Inv.deviceEvent {w : World} (h : Inv w) (dev : Device) (e : DeviceEvent)
    (hmem : dev ∈ w.created) : Inv { w with session := registerDeviceEvents w.session e } := by
  have hdev : w.session.device ≠ none := by
    intro hnone
    have hc := h.created
    rw [hnone] at hc
    simp [hc] at hmem
  cases e <;>
    exact h.congr rfl rfl rfl rfl (fun _ => by simpa [registerDeviceEvents, appendLog] using hdev)

/-- Every step on the rendered page keeps the invariant. -/
theorem Inv.step {deviceCreateIsFunction : Bool} {w w1 : World} {a : Action}
    (h : Inv w) (hs : step deviceCreateIsFunction w a = some w1) : Inv w1 := by
  cases a with
  | pressCall =>
    simp only [App.step, perform] at hs
    split at hs
    · simp at hs
    · rename_i hen
      simp only [Option.some.injEq] at hs
      subst hs
      exact h.handleCall (by simpa using hen)
  | pressHangup =>
    simp only [App.step, perform] at hs
    split at hs
    · simp at hs
    · simp only [Option.some.injEq] at hs
      subst hs
      exact h.handleHangup
  | editNumber value =>
    simp only [App.step, perform, Option.some.injEq] at hs
    subst hs
    exact h.congr rfl rfl rfl rfl h.connection
  | editIdentity value =>
    simp only [App.step, perform, Option.some.injEq] at hs
    subst hs
    exact h.congr rfl rfl rfl rfl h.connection
  | prefill queryNumber =>
    simp only [App.step, perform, Option.some.injEq] at hs
    subst hs
    unfold App.prefill
    split
    · exact h.congr rfl rfl rfl rfl h.connection
    · exact h
  | settle i o =>
    simp only [App.step, perform] at hs
    exact h.settle hs
  | deviceEvent dev e =>
    simp only [App.step, perform] at hs
    split at hs
    · rename_i hmem
      simp only [Option.some.injEq] at hs
      subst hs
      exact h.deviceEvent dev e hmem
    · simp at hs

/-- Every run on the rendered page keeps the invariant. -/
theorem Inv.run {deviceCreateIsFunction : Bool} {actions : List Action} {w w1 : World}
    (h : Inv w) (hr : run deviceCreateIsFunction w actions = some w1) : Inv w1 := by
  induction actions generalizing w with
  | nil =>
    simp only [App.run, Option.some.injEq] at hr
    subst hr
    exact h
  | cons a actions ih =>
    simp only [App.run] at hr
    split at hr
    · rename_i w2 hstep
      exact ih (h.step hstep) hr
    · simp at hr

/-- Every reachable world satisfies the invariant. -/
theorem Reachable.inv {deviceCreateIsFunction : Bool} {defaultIdentity : String} {w : World}
    (hr : Reachable deviceCreateIsFunction defaultIdentity w) : Inv w := by
  obtain ⟨actions, hrun⟩ := hr
  exact (Inv.initial defaultIdentity).run hrun

/-- A step on the rendered page keeps a stored device in place. -/
theorem Inv.step_device {deviceCreateIsFunction : Bool} {w w1 : World} {a : Action}
    (h : Inv w) (hs : App.step deviceCreateIsFunction w a = some w1) (dev : Device)
    (hdev : w.session.device = some dev) : w1.session.device = some dev := by
  cases a with
  | pressCall =>
    simp only [App.step, perform] at hs
    split at hs
    · simp at hs
    · simp only [Option.some.injEq] at hs
      subst hs
      unfold App.handleCall
      split
      · simpa using hdev
      · simp [hdev]
  | pressHangup =>
    simp only [App.step, perform] at hs
    split at hs
    · simp at hs
    · simp only [Option.some.injEq] at hs
      subst hs
      unfold App.handleHangup
      cases hconn : w.session.connection <;> simp [hdev, appendLog]
  | editNumber value =>
    simp only [App.step, perform, Option.some.injEq] at hs
    subst hs
    simpa using hdev
  | editIdentity value =>
    simp only [App.step, perform, Option.some.injEq] at hs
    subst hs
    simpa using hdev
  | prefill queryNumber =>
    simp only [App.step, perform, Option.some.injEq] at hs
    subst hs
    unfold App.prefill
    split
    · simpa [appendLog] using hdev
    · exact hdev
  | settle i o =>
    simp only [App.step, perform] at hs
    unfold App.settle at hs
    split at hs
    · split at hs <;> simp only [Option.some.injEq] at hs <;> subst hs <;>
        simpa [App.failEnsureDevice] using hdev
    · rename_i number identity r hpend
      have hnone : w.session.device = none :=
        h.noDevice _ (List.getElem?_mem hpend) (beforeDevice_create number identity)
      rw [hnone] at hdev
      simp at hdev
    · split at hs <;> simp only [Option.some.injEq] at hs <;> subst hs <;>
        simpa [App.failEnsureDevice, App.proceedToConnect] using hdev
    · split at hs <;> simp only [Option.some.injEq] at hs <;> subst hs <;>
        simpa [appendLog] using hdev
    · simp at hs
  | deviceEvent d e =>
    simp only [App.step, perform] at hs
    split at hs
    · simp only [Option.some.injEq] at hs
      subst hs
      cases e <;> simpa [registerDeviceEvents, appendLog] using hdev
    · simp at hs

/-- The expression `a || 'literal'` is not the empty string when the literal is not. -/
theorem orDefault_ne_empty (a : Option String) (d : String) (hd : d ≠ "") :
    orDefault a d ≠ "" := by
  unfold orDefault
  split
  · split
    · simp_all
    · exact hd
  · exact hd

/-- The expression `a || 'literal'` is `a` when `a` is a non-empty string. -/
theorem orDefault_some (s d : String) (hs : s ≠ "") : orDefault (some s) d = s := by
  simp [orDefault, hs]

/-- The generic message for a response that is not OK is not the empty string. -/
theorem tokenRequestFailed_ne_empty (status : Nat) :
    "Token request failed (" ++ toString status ++ ")" ≠ "" := by
  intro h
  have hlen := congrArg String.length h
  simp only [String.length_append] at hlen
  have h1 : ")".length = 1 := by decide
  have h2 : "".length = 0 := by decide
  omega

/-- C6: for every session state, `handleCall` with an empty number makes no call to the
network or the SDK and suspends no invocation; it leaves `status`, `device`, `connection`,
the log and `loading` as they are and only stores the validation message in `error`. -/
theorem handleCall_empty_number (deviceCreateIsFunction : Bool) (w : World)
    (hempty : w.session.number = "") :
    perform deviceCreateIsFunction w .pressCall = some (handleCall w) ∧
    handleCall w =
      { w with session :=
          { w.session with error := "Enter a number to dial (E.164, e.g. +14155552671)" } } ∧
    (handleCall w).effects = w.effects ∧
    fetchCount (handleCall w) = fetchCount w ∧
    (handleCall w).pending = w.pending ∧
    (handleCall w).created = w.created ∧
    (handleCall w).session.status = w.session.status ∧
    (handleCall w).session.device = w.session.device ∧
    (handleCall w).session.connection = w.session.connection ∧
    (handleCall w).session.logs = w.session.logs ∧
    (handleCall w).session.loading = w.session.loading ∧
    (handleCall w).session.error = "Enter a number to dial (E.164, e.g. +14155552671)" := by
  simp [perform, handleCall, hempty, fetchCount]

/-- C6 on the freshly mounted page, whose number is empty. -/
theorem handleCall_empty_number_witness :
    (handleCall (initialWorld "clickup-agent")).effects = [] ∧
    (handleCall (initialWorld "clickup-agent")).session.status = Status.idle ∧
    (handleCall (initialWorld "clickup-agent")).session.error
      = "Enter a number to dial (E.164, e.g. +14155552671)" := by
  have h := handleCall_empty_number false (initialWorld "clickup-agent") (by decide)
  exact ⟨h.2.2.1, h.2.2.2.2.2.2.1, h.2.2.2.2.2.2.2.2.2.2.2⟩

/-- C8: from every state, `incoming(c)` sets status `incoming` and stores `c`; `cancel` and
`disconnect` set status `ready` and clear the connection; `connect(c)` sets status `on-call`
and stores `c`; `registered` sets status `ready`; `unregistered` and the hang-up callback
change neither status nor connection; so hang-up followed by `disconnect` ends at `ready`
with no connection, and `incoming(c)` followed by `cancel` passes through `incoming` with
connection `c` and ends at `ready` with no connection.  None of them changes the device. -/
theorem device_event_transitions (w : World) (c : Connection) :
    ((registerDeviceEvents w.session (.incoming c)).status = Status.incoming ∧
      (registerDeviceEvents w.session (.incoming c)).connection = some c) ∧
    ((registerDeviceEvents w.session .cancel).status = Status.ready ∧
      (registerDeviceEvents w.session .cancel).connection = none) ∧
    ((registerDeviceEvents w.session (.connect c)).status = Status.onCall ∧
      (registerDeviceEvents w.session (.connect c)).connection = some c) ∧
    ((registerDeviceEvents w.session .disconnect).status = Status.ready ∧
      (registerDeviceEvents w.session .disconnect).connection = none) ∧
    (registerDeviceEvents w.session .registered).status = Status.ready ∧
    ((registerDeviceEvents w.session .unregistered).status = w.session.status ∧
      (registerDeviceEvents w.session .unregistered).connection = w.session.connection) ∧
    ((handleHangup w).session.status = w.session.status ∧
      (handleHangup w).session.connection = w.session.connection ∧
      (handleHangup w).session.device = w.session.device) ∧
    ((registerDeviceEvents (handleHangup w).session .disconnect).status = Status.ready ∧
      (registerDeviceEvents (handleHangup w).session .disconnect).connection = none) ∧
    ((registerDeviceEvents (registerDeviceEvents w.session (.incoming c)) .cancel).status
        = Status.ready ∧
      (registerDeviceEvents (registerDeviceEvents w.session (.incoming c)) .cancel).connection
        = none) ∧
    (∀ e, (registerDeviceEvents w.session e).device = w.session.device) := by
  have hh : (handleHangup w).session.status = w.session.status ∧
      (handleHangup w).session.connection = w.session.connection ∧
      (handleHangup w).session.device = w.session.device := by
    unfold handleHangup
    cases hc : w.session.connection <;> cases hd : w.session.device <;>
      simp [appendLog, hc, hd]
  refine ⟨?_, ?_, ?_, ?_, ?_, ?_, hh, ?_, ?_, ?_⟩ <;>
    first
      | (intro e; cases e <;> simp [registerDeviceEvents, appendLog])
      | simp [registerDeviceEvents, appendLog]

/-- With a number and without a device, `handleCall` starts the credential request. -/
theorem handleCall_no_device (w : World) (hnum : w.session.number ≠ "")
    (hdev : w.session.device = none) :
    handleCall w =
      { w with
        session := { w.session with loading := true, error := "", status := .initializing }
        effects := w.effects ++ [.fetchToken w.session.identity]
        pending := .token w.session.number w.session.identity :: w.pending } := by
  simp [handleCall, hnum, hdev]

/-- With a device, `handleCall` makes no credential request and constructs no device. -/
theorem handleCall_with_device (w : World) (dev : Device) (hdev : w.session.device = some dev) :
    fetchCount (handleCall w) = fetchCount w ∧
    fetchesInFlight (handleCall w) = fetchesInFlight w ∧
    (handleCall w).created = w.created ∧
    (handleCall w).session.device = some dev := by
  unfold handleCall
  split
  · simp [fetchCount, fetchesInFlight, hdev]
  · simp [fetchCount, fetchesInFlight, hdev, List.countP_append, List.countP_cons,
      Pending.isToken]

/-- C7: from a reachable session without a device and with a non-empty number, pressing call
and then a failure of the credential request (the request rejects, or the response is not
OK) or of the device construction ends with status `error`, a non-empty `error` message, no
device and no connection; the message is the message of the underlying error when it has a
non-empty one (for a response that is not OK: the `error` of its payload, or else
`Token request failed (status)`), and `Failed to start call` otherwise. -/
theorem call_failure_ends_in_error (deviceCreateIsFunction : Bool) (defaultIdentity : String)
    (w : World) (hr : Reachable deviceCreateIsFunction defaultIdentity w)
    (hdev : w.session.device = none) (hnum : w.session.number ≠ "")
    (hen : callDisabled w.session = false) :
    (∀ err : JsError, ∃ w1 w2,
      step deviceCreateIsFunction w .pressCall = some w1 ∧
      step deviceCreateIsFunction w1 (.settle 0 (.token (.rejected err))) = some w2 ∧
      w2.session.status = Status.error ∧
      w2.session.error = orDefault err.message "Failed to start call" ∧
      w2.session.error ≠ "" ∧
      w2.session.device = none ∧ w2.session.connection = none ∧ w2.created = []) ∧
    (∀ (status : Nat) (apiError : Option String), ∃ w1 w2,
      step deviceCreateIsFunction w .pressCall = some w1 ∧
      step deviceCreateIsFunction w1 (.settle 0 (.token (.notOk status apiError))) = some w2 ∧
      w2.session.status = Status.error ∧
      w2.session.error
        = orDefault apiError ("Token request failed (" ++ toString status ++ ")") ∧
      w2.session.error ≠ "" ∧
      w2.session.device = none ∧ w2.session.connection = none ∧ w2.created = []) ∧
    (∀ (token : Option String) (err : JsError), ∃ w1 w2 w3,
      step deviceCreateIsFunction w .pressCall = some w1 ∧
      step deviceCreateIsFunction w1 (.settle 0 (.token (.ok token))) = some w2 ∧
      step deviceCreateIsFunction w2 (.settle 0 (.create (.threw err))) = some w3 ∧
      w3.session.status = Status.error ∧
      w3.session.error = orDefault err.message "Failed to start call" ∧
      w3.session.error ≠ "" ∧
      w3.session.device = none ∧ w3.session.connection = none ∧ w3.created = []) := by
  have hinv := hr.inv
  have hconn : w.session.connection = none := by
    by_contra hne
    exact hinv.connection hne hdev
  have hcreated : w.created = [] := by simpa [hdev] using hinv.created
  have hpress : step deviceCreateIsFunction w .pressCall = some (handleCall w) := by
    simp [step, perform, hen]
  have hgeneric : ("Failed to start call" : String) ≠ "" := by decide
  refine ⟨?_, ?_, ?_⟩
  · intro err
    refine ⟨handleCall w, failEnsureDevice (handleCall w) 0 err, hpress, ?_, ?_⟩
    · simp [step, perform, settle, handleCall_no_device w hnum hdev]
    · simp [failEnsureDevice, handleCall_no_device w hnum hdev, hdev, hconn, hcreated,
        orDefault_ne_empty _ _ hgeneric]
  · intro status apiError
    refine ⟨handleCall w,
      failEnsureDevice (handleCall w) 0 (tokenRequestError status apiError), hpress, ?_, ?_⟩
    · simp [step, perform, settle, handleCall_no_device w hnum hdev]
    · have hne := orDefault_ne_empty apiError _ (tokenRequestFailed_ne_empty status)
      simp [failEnsureDevice, handleCall_no_device w hnum hdev, hdev, hconn, hcreated,
        tokenRequestError, orDefault_some _ _ hne, hne]
  · intro token err
    let w2 : World :=
      { handleCall w with
        effects := (handleCall w).effects ++ [.createDevice token]
        pending := (handleCall w).pending.set 0
          (.create w.session.number w.session.identity) }
    refine ⟨handleCall w, w2, failEnsureDevice w2 0 err, hpress, ?_, ?_, ?_⟩
    · simp [w2, step, perform, settle, handleCall_no_device w hnum hdev]
    · simp [w2, step, perform, settle, handleCall_no_device w hnum hdev]
    · simp [w2, failEnsureDevice, handleCall_no_device w hnum hdev, hdev, hconn, hcreated,
        orDefault_ne_empty _ _ hgeneric]

/-- C7 on the page where a number was typed: the credential request rejects with the message
`Failed to fetch`, and the session ends in `error` with that message and without a device. -/
theorem call_failure_ends_in_error_witness :
    ((step false typedWorld .pressCall).bind (fun w1 =>
        step false w1 (.settle 0 (.token (.rejected { message := some "Failed to fetch" }))))).map
        (fun w2 => (w2.session.status, w2.session.error, w2.session.device))
      = some (Status.error, "Failed to fetch", none) := by
  obtain ⟨w1, w2, h1, h2, h3, h4, _, h6, _, _⟩ :=
    (call_failure_ends_in_error false "clickup-agent" typedWorld
      ⟨[.editNumber "+14155552671"], by decide⟩ (by decide) (by decide) (by decide)).1
      { message := some "Failed to fetch" }
  have h5 : orDefault (some "Failed to fetch") "Failed to start call" = "Failed to fetch" := by
    decide
  simp [h1, h2, h3, h4, h5, h6]

/-- While the call button is disabled no step makes a credential request: only
`handleCall` calls `fetch`. -/
theorem step_fetchCount {deviceCreateIsFunction : Bool} {w w1 : World} {a : Action}
    (hs : step deviceCreateIsFunction w a = some w1) (hdis : callDisabled w.session = true) :
    fetchCount w1 = fetchCount w := by
  cases a with
  | pressCall => simp [step, hdis] at hs
  | pressHangup =>
    simp only [step, perform] at hs
    split at hs
    · simp at hs
    · simp only [Option.some.injEq] at hs
      subst hs
      unfold handleHangup
      cases hc : w.session.connection <;> cases hd : w.session.device <;>
        simp [fetchCount, List.countP_append, List.countP_cons]
  | editNumber value =>
    simp only [step, perform, Option.some.injEq] at hs
    subst hs
    rfl
  | editIdentity value =>
    simp only [step, perform, Option.some.injEq] at hs
    subst hs
    rfl
  | prefill queryNumber =>
    simp only [step, perform, Option.some.injEq] at hs
    subst hs
    unfold prefill
    split <;> rfl
  | settle i o =>
    simp only [step, perform] at hs
    unfold settle at hs
    split at hs
    · split at hs <;> simp only [Option.some.injEq] at hs <;> subst hs <;>
        simp [fetchCount, failEnsureDevice, List.countP_append, List.countP_cons]
    · split at hs
      · simp only [Option.some.injEq] at hs
        subst hs
        simp [fetchCount, failEnsureDevice]
      · split at hs <;> simp only [Option.some.injEq] at hs <;> subst hs <;>
          simp [fetchCount, proceedToConnect, List.countP_append, List.countP_cons]
    · split at hs <;> simp only [Option.some.injEq] at hs <;> subst hs <;>
        simp [fetchCount, failEnsureDevice, proceedToConnect, List.countP_append,
          List.countP_cons]
    · split at hs <;> simp only [Option.some.injEq] at hs <;> subst hs <;>
        simp [fetchCount]
    · simp at hs
  | deviceEvent dev e =>
    simp only [step, perform] at hs
    split at hs
    · simp only [Option.some.injEq] at hs
      subst hs
      rfl
    · simp at hs

/-- C9: in every world reachable through the rendered page at most one device has been
constructed and at most one credential request is in flight; while an invocation of
`handleCall` is inside `ensureDevice` (credential request, device construction,
registration) the call button is disabled, so that a second press is not a step, and no step
whatever makes a second credential request or leads to a second device; and with a device
stored `handleCall` takes the fast path: it makes no credential request and constructs no
device. -/
theorem one_device_per_session (deviceCreateIsFunction : Bool) (defaultIdentity : String)
    (w : World) (hr : Reachable deviceCreateIsFunction defaultIdentity w) :
    w.created.length ≤ 1 ∧
    fetchesInFlight w ≤ 1 ∧
    ((∃ t ∈ w.pending, t.inEnsureDevice = true) →
      callDisabled w.session = true ∧ step deviceCreateIsFunction w .pressCall = none) ∧
    (∀ dev, w.session.device = some dev →
      fetchCount (handleCall w) = fetchCount w ∧
      fetchesInFlight (handleCall w) = fetchesInFlight w ∧
      (handleCall w).created = w.created ∧
      (handleCall w).session.device = some dev) ∧
    ((∃ t ∈ w.pending, t.inEnsureDevice = true) →
      ∀ (a : Action) (w1 : World), step deviceCreateIsFunction w a = some w1 →
        fetchCount w1 = fetchCount w ∧ fetchesInFlight w1 ≤ 1 ∧ w1.created.length ≤ 1) := by
  have hinv := hr.inv
  have hcreated : ∀ w0 : World, Inv w0 → w0.created.length ≤ 1 := by
    intro w0 h0
    rw [h0.created]
    cases w0.session.device <;> simp
  have hflight : ∀ w0 : World, Inv w0 → fetchesInFlight w0 ≤ 1 := by
    intro w0 h0
    refine Nat.le_trans (List.countP_mono_left ?_) h0.atMostOne
    intro t _ ht
    cases t <;> simp_all [Pending.isToken]
  have hdisabled : (∃ t ∈ w.pending, t.inEnsureDevice = true) →
      callDisabled w.session = true := by
    rintro ⟨t, hmem, hin⟩
    have hpos : 0 < w.pending.countP Pending.inEnsureDevice :=
      List.countP_pos_iff.mpr ⟨t, hmem, hin⟩
    have hload := hinv.loading hpos
    simp [callDisabled, hload]
  refine ⟨hcreated w hinv, hflight w hinv, ?_, ?_, ?_⟩
  · intro hex
    have hdis := hdisabled hex
    exact ⟨hdis, by simp [step, hdis]⟩
  · intro dev hdev
    exact handleCall_with_device w dev hdev
  · intro hex a w1 hs
    have hinv1 : Inv w1 := hinv.step hs
    exact ⟨step_fetchCount hs (hdisabled hex), hflight w1 hinv1, hcreated w1 hinv1⟩

/-- C9 on a page with a credential request in flight: the press is refused. -/
theorem one_device_per_session_witness :
    step false (handleCall typedWorld) .pressCall = none ∧
    (handleCall typedWorld).created.length ≤ 1 := by
  have h := one_device_per_session false "clickup-agent" (handleCall typedWorld)
    ⟨[.editNumber "+14155552671", .pressCall], by decide⟩
  exact ⟨(h.2.2.1 ⟨.token "+14155552671" "clickup-agent", by decide, rfl⟩).2, h.1⟩

/-- C10: in every world reachable through the rendered page from the freshly mounted
component, a connection is stored only when a device is stored, and no step replaces or
clears a stored device. -/
theorem connection_needs_device (deviceCreateIsFunction : Bool) (defaultIdentity : String)
    (w : World) (hr : Reachable deviceCreateIsFunction defaultIdentity w) :
    (w.session.connection ≠ none → w.session.device ≠ none) ∧
    (∀ (a : Action) (w1 : World) (dev : Device),
      step deviceCreateIsFunction w a = some w1 → w.session.device = some dev →
      w1.session.device = some dev) :=
  ⟨hr.inv.connection, fun _ _ dev hs hdev => hr.inv.step_device hs dev hdev⟩

/-- C10 at the end of a successful outbound call: a connection is stored, and so is a
device. -/
theorem connection_needs_device_witness :
    onCallWorld.session.connection ≠ none ∧ onCallWorld.session.device ≠ none := by
  have h := connection_needs_device false "clickup-agent" onCallWorld ⟨dialActions, by decide⟩
  exact ⟨by decide, h.1 (by decide)⟩

end App

end Dialer
